import Mathlib

/-!
# AquaGenius WWTP Designer — verification of the calculation engine

Shallow embedding of the domain-logic core of `AquaGenius_2.py`:
the constants table `C`, the `Influent` data model with its derived
canonical daily flow `m3d`, the geometry helpers `_rect` / `_circ`,
the air-demand helper `_air_demand`, and the four technology design
rules `calc_cas`, `calc_ifas`, `calc_mbr`, `calc_mbbr`.

Modelling conventions:
* Python floats are modelled as exact rationals `ℚ` (the claims are about
  the formulas, with no rounding of intermediate results); the square
  roots produced by the geometry helpers are modelled in `ℝ`.
* A Python runtime exception is modelled by the `PyError` type and
  fallible evaluation by `Except PyError` / `Option`.  The `Influent`
  dataclass has no `__post_init__`, so its constructor always succeeds;
  an unrecognized flow unit surfaces as a `KeyError` only when the
  dictionary lookup inside the `m3d` property runs, which we model by
  `Option` (`none` = `KeyError`).
* Python dictionaries with string keys are modelled as association
  lists `List (String × ℚ)` in insertion order, looked up with
  `List.lookup`.
-/

/-- Runtime exceptions a helper of the Python source can raise. -/
inductive PyError where
  | keyError
  | zeroDivisionError
  | valueError
deriving DecidableEq

-- ------------------------- CONSTANTS ------------------------------
-- dataclass `C` in the source (only the members the engine reads).

/-- `C.MGD_TO_M3D: float = 3785.41` -/
def C.MGD_TO_M3D : ℚ := 3785.41

/-- `C.MLD_TO_M3D: float = 1000` -/
def C.MLD_TO_M3D : ℚ := 1000

/-- `C.O2_BOD: float = 1.5` -/
def C.O2_BOD : ℚ := 1.5

/-- `C.O2_N: float = 4.57` -/
def C.O2_N : ℚ := 4.57

/-- `C.SOTE: float = 0.30` -/
def C.SOTE : ℚ := 0.30

/-- `C.O2_AIR: float = 0.232` -/
def C.O2_AIR : ℚ := 0.232

/-- `C.RHO_AIR: float = 1.225` -/
def C.RHO_AIR : ℚ := 1.225

-- ------------------------- DATA MODEL -----------------------------

/-- The `Influent` dataclass: raw flow magnitude, flow-unit string and
four pollutant concentrations.  The Python dataclass performs no
validation of its fields. -/
structure Influent where
  flow : ℚ
  unit : String
  bod : ℚ
  tss : ℚ
  tkn : ℚ
  tp : ℚ
deriving DecidableEq

/-- The `@dataclass`-generated constructor of `Influent`: there is no
`__post_init__`, so construction never raises and simply stores the six
fields. -/
def Influent.construct (flow : ℚ) (unit : String) (bod tss tkn tp : ℚ) :
    Except PyError Influent :=
  .ok ⟨flow, unit, bod, tss, tkn, tp⟩

/-- The dictionary `{"MGD": C.MGD_TO_M3D, "MLD": C.MLD_TO_M3D, "m³/day": 1.0}`
used by the `m3d` property; `none` models the `KeyError` raised on any
other unit string. -/
def unitFactor : String → Option ℚ
  | "MGD" => some C.MGD_TO_M3D
  | "MLD" => some C.MLD_TO_M3D
  | "m³/day" => some 1.0
  | _ => none

/-- The `m3d` property: `self.flow * {...}[self.unit]`. -/
def Influent.m3d (inf : Influent) : Option ℚ :=
  (unitFactor inf.unit).map (fun f => inf.flow * f)

/-- The `Sizing` dataclass.  The Python version stores the zone
dimensions as formatted strings returned by the geometry helpers; the
embedding records the numeric data the design rule feeds them: the
volume handed to `_rect` for each zone (in order) and, when present,
the surface area handed to `_circ` for the clarifier. -/
structure Sizing where
  tech : String
  volume : ℚ
  zoneVols : List (String × ℚ)
  clarArea : Option ℚ
deriving DecidableEq

-- ------------------ HELPERS --------------------------------------

/-- Control flow of `_rect(vol, depth)`, which computes
`w = (vol / depth / 3) ** 0.5` and formats `3*w`, `w`, `depth` with no
input validation.  `depth = 0` raises `ZeroDivisionError` at the
division; that is the only way `_rect` can fail: a negative radicand
makes `** 0.5` return a complex number, and the f-string `:.1f`
formatting of a complex value succeeds (complex supports float-style
format specifiers), so `_rect` still returns normally then.  The result
carries the radicand `w² = vol / depth / 3`. -/
def rectRun (vol depth : ℚ) : Except PyError ℚ :=
  if depth = 0 then .error .zeroDivisionError
  else .ok (vol / depth / 3)

/-- Control flow of `_circ(area, depth)`, which computes
`d = 2 * math.sqrt(area / math.pi)` with no input validation.
`math.sqrt` raises `ValueError` (math domain error) exactly when its
argument is negative, i.e. when `area < 0`; on success the result
carries `(d/2)² = area / π`, recorded as the rational `area` pre-division
by π since the sign test only depends on `area`. -/
def circRun (area : ℚ) : Except PyError ℚ :=
  if area < 0 then .error .valueError else .ok area

/-- The width `w = (vol / depth / 3) ** 0.5` computed by `_rect` for a
nonnegative radicand, as a real number. -/
noncomputable def rectWidth (vol depth : ℚ) : ℝ :=
  Real.sqrt ((vol : ℝ) / (depth : ℝ) / 3)

/-- The length `3 * w` computed by `_rect`, as a real number. -/
noncomputable def rectLength (vol depth : ℚ) : ℝ :=
  3 * rectWidth vol depth

/-- `_air_demand(inf, eff)`:
`bod_rm = inf.bod - eff["BOD"]`, `n_rm = inf.tkn - eff["TKN"]`,
`o2 = (bod_rm*C.O2_BOD + n_rm*C.O2_N) * inf.m3d / 1000`,
result `o2 / (C.SOTE * C.O2_AIR * C.RHO_AIR) / 24`.
`none` models the `KeyError` when a key or the flow unit is missing. -/
def airDemand (inf : Influent) (eff : List (String × ℚ)) : Option ℚ := do
  let effBod ← eff.lookup "BOD"
  let effTkn ← eff.lookup "TKN"
  let q ← inf.m3d
  let bod_rm := inf.bod - effBod
  let n_rm := inf.tkn - effTkn
  let o2 := (bod_rm * C.O2_BOD + n_rm * C.O2_N) * q / 1000
  return o2 / (C.SOTE * C.O2_AIR * C.RHO_AIR) / 24

/-- The closed-form value `_air_demand` returns once the two effluent
lookups gave `b`, `t` and `inf.m3d` gave `q` (a named subexpression of
`airDemand`, used to state theorems). -/
def airFormula (inf : Influent) (b t q : ℚ) : ℚ :=
  ((inf.bod - b) * C.O2_BOD + (inf.tkn - t) * C.O2_N) * q / 1000 /
    (C.SOTE * C.O2_AIR * C.RHO_AIR) / 24

/-- `res = {f"Effluent {k} (mg/L)": v for k, v in eff.items()}` followed
by `res["Required Air (m³/h)"] = air`, as an insertion-ordered list. -/
def mkMetrics (eff : List (String × ℚ)) (air : ℚ) : List (String × ℚ) :=
  eff.map (fun kv => ("Effluent " ++ kv.1 ++ " (mg/L)", kv.2)) ++
    [("Required Air (m³/h)", air)]

-- ----------------------- CALCULATIONS -----------------------------

/-- `eff = {"BOD": 10, "TSS": 12, "TKN": 8, "TP": 2}` in `calc_cas`. -/
def casEff : List (String × ℚ) := [("BOD", 10), ("TSS", 12), ("TKN", 8), ("TP", 2)]

/-- `eff = {"BOD": 8, "TSS": 10, "TKN": 5, "TP": 1.5}` in `calc_ifas`. -/
def ifasEff : List (String × ℚ) := [("BOD", 8), ("TSS", 10), ("TKN", 5), ("TP", 1.5)]

/-- `eff = {"BOD": 5, "TSS": 1, "TKN": 4, "TP": 1}` in `calc_mbr`. -/
def mbrEff : List (String × ℚ) := [("BOD", 5), ("TSS", 1), ("TKN", 4), ("TP", 1)]

/-- `eff = {"BOD": 15, "TSS": 20, "TKN": 10, "TP": 2.5}` in `calc_mbbr`. -/
def mbbrEff : List (String × ℚ) := [("BOD", 15), ("TSS", 20), ("TKN", 10), ("TP", 2.5)]

/-- `calc_cas`: `hrt = 6`, `vol = inf.m3d * hrt / 24`,
`clar_area = inf.m3d / 24`, zones `Anoxic = _rect(vol*0.3)`,
`Aerobic = _rect(vol*0.7)`, `Clarifier = _circ(clar_area)`;
metrics from `casEff` plus the air demand. -/
def calc_cas (inf : Influent) : Option (Sizing × List (String × ℚ)) := do
  let q ← inf.m3d
  let vol := q * 6 / 24
  let clar_area := q / 24
  let air ← airDemand inf casEff
  return (⟨"CAS", vol, [("Anoxic", vol * 0.3), ("Aerobic", vol * 0.7)], some clar_area⟩,
    mkMetrics casEff air)

/-- `calc_ifas`: `hrt = 6`, `vol = inf.m3d * hrt / 24`,
`clar_area = inf.m3d / 28`, zones `Anoxic = _rect(vol*0.3)`,
`IFAS = _rect(vol*0.7)`, `Clarifier = _circ(clar_area)`;
metrics from `ifasEff` plus the air demand. -/
def calc_ifas (inf : Influent) : Option (Sizing × List (String × ℚ)) := do
  let q ← inf.m3d
  let vol := q * 6 / 24
  let clar_area := q / 28
  let air ← airDemand inf ifasEff
  return (⟨"IFAS", vol, [("Anoxic", vol * 0.3), ("IFAS", vol * 0.7)], some clar_area⟩,
    mkMetrics ifasEff air)

/-- `calc_mbr`: `hrt = 5`, `vol = inf.m3d * hrt / 24`, zones
`Anoxic = _rect(vol*0.4)`, `MBR = _rect(vol*0.6)`, no clarifier;
metrics from `mbrEff` plus the air demand. -/
def calc_mbr (inf : Influent) : Option (Sizing × List (String × ℚ)) := do
  let q ← inf.m3d
  let vol := q * 5 / 24
  let air ← airDemand inf mbrEff
  return (⟨"MBR", vol, [("Anoxic", vol * 0.4), ("MBR", vol * 0.6)], none⟩,
    mkMetrics mbrEff air)

/-- `calc_mbbr`: `hrt = 4`, `vol = inf.m3d * hrt / 24`, single zone
`MBBR = _rect(vol)`, no clarifier; metrics from `mbbrEff` plus the air
demand. -/
def calc_mbbr (inf : Influent) : Option (Sizing × List (String × ℚ)) := do
  let q ← inf.m3d
  let vol := q * 4 / 24
  let air ← airDemand inf mbbrEff
  return (⟨"MBBR", vol, [("MBBR", vol)], none⟩,
    mkMetrics mbbrEff air)

-- ---------------- STATEMENT ABBREVIATIONS -------------------------

theorem casEff_lookup_bod : casEff.lookup "BOD" = some 10 := rfl

theorem casEff_lookup_tkn : casEff.lookup "TKN" = some 8 := rfl

theorem airDemand_eval (inf : Influent) (eff : List (String × ℚ)) (b t q : ℚ)
    (hb : eff.lookup "BOD" = some b) (ht : eff.lookup "TKN" = some t)
    (hq : inf.m3d = some q) :
    airDemand inf eff = some (airFormula inf b t q) := by
  simp [airDemand, airFormula, hb, ht, hq]

/-- C1: for every Influent whose unit is in the recognized enumeration,
the derived canonical daily flow `m3d` equals the raw flow multiplied by
the unit's conversion factor: 3785.41 for `"MGD"`, 1000 for `"MLD"` and
1 for `"m³/day"`. -/
theorem m3d_unit_conversion (inf : Influent) :
    (inf.unit = "MGD" → inf.m3d = some (inf.flow * 3785.41)) ∧
    (inf.unit = "MLD" → inf.m3d = some (inf.flow * 1000)) ∧
    (inf.unit = "m³/day" → inf.m3d = some (inf.flow * 1)) := by
  refine ⟨fun h => ?_, fun h => ?_, fun h => ?_⟩ <;>
    simp [Influent.m3d, unitFactor, h, C.MGD_TO_M3D, C.MLD_TO_M3D] <;> norm_num

/-- Witness for C1 at the spec's three examples: 1 MGD gives
3785.41 m³/day, 1 MLD gives 1000 m³/day, 500 m³/day gives 500. -/
theorem m3d_unit_conversion_witness :
    (Influent.mk 1 "MGD" 250 220 40 7).m3d = some (1 * 3785.41) ∧
    (Influent.mk 1 "MLD" 250 220 40 7).m3d = some (1 * 1000) ∧
    (Influent.mk 500 "m³/day" 250 220 40 7).m3d = some (500 * 1) :=
  ⟨(m3d_unit_conversion ⟨1, "MGD", 250, 220, 40, 7⟩).1 rfl,
   (m3d_unit_conversion ⟨1, "MLD", 250, 220, 40, 7⟩).2.1 rfl,
   (m3d_unit_conversion ⟨500, "m³/day", 250, 220, 40, 7⟩).2.2 rfl⟩

/-- C2: for every Influent with a recognized unit (canonical flow `q`)
and every effluent mapping with BOD and TKN entries, `_air_demand`
returns exactly
`((bod − effBOD)·1.5 + (tkn − effTKN)·4.57) · q / 1000 / (0.30·0.232·1.225) / 24`,
with no rounding of intermediate results. -/
theorem airDemand_exact_formula (inf : Influent) (eff : List (String × ℚ)) (b t q : ℚ)
    (hb : eff.lookup "BOD" = some b) (ht : eff.lookup "TKN" = some t)
    (hq : inf.m3d = some q) :
    airDemand inf eff =
      some (((inf.bod - b) * 1.5 + (inf.tkn - t) * 4.57) * q / 1000 /
        (0.30 * 0.232 * 1.225) / 24) := by
  rw [airDemand_eval inf eff b t q hb ht hq]
  simp [airFormula, C.O2_BOD, C.O2_N, C.SOTE, C.O2_AIR, C.RHO_AIR]

/-- Witness for C2 at the spec's end-to-end scenario
(flow 1 MGD, BOD 250, TKN 40, CAS effluent table). -/
theorem airDemand_exact_formula_witness :
    airDemand ⟨1, "MGD", 250, 220, 40, 7⟩ casEff =
      some (((250 - 10) * 1.5 + (40 - 8) * 4.57) * 3785.41 / 1000 /
        (0.30 * 0.232 * 1.225) / 24) :=
  airDemand_exact_formula ⟨1, "MGD", 250, 220, 40, 7⟩ casEff 10 8 3785.41
    (by decide) (by decide) (by simp [Influent.m3d, unitFactor, C.MGD_TO_M3D])

/-- C7: for every volume V > 0 and depth D > 0, `_rect` computes
`w = sqrt(V / D / 3)` and length `3w`, so the unrounded length is
exactly three times the unrounded width. -/
theorem rect_aspect_ratio (V D : ℚ) (hV : 0 < V) (hD : 0 < D) :
    rectLength V D = 3 * rectWidth V D ∧
    rectWidth V D = Real.sqrt ((V : ℝ) / (D : ℝ) / 3) ∧
    rectWidth V D ^ 2 = (V : ℝ) / (D : ℝ) / 3 := by
  have hV' : (0 : ℝ) < (V : ℝ) := by exact_mod_cast hV
  have hD' : (0 : ℝ) < (D : ℝ) := by exact_mod_cast hD
  refine ⟨rfl, rfl, ?_⟩
  rw [rectWidth]
  exact Real.sq_sqrt (by positivity)

/-- Witness for C7 at V = 27, D = 4.5. -/
theorem rect_aspect_ratio_witness :
    (0 : ℚ) < 27 ∧ (0 : ℚ) < 4.5 ∧
    (rectLength 27 4.5 = 3 * rectWidth 27 4.5 ∧
     rectWidth 27 4.5 = Real.sqrt (((27 : ℚ) : ℝ) / ((4.5 : ℚ) : ℝ) / 3) ∧
     rectWidth 27 4.5 ^ 2 = ((27 : ℚ) : ℝ) / ((4.5 : ℚ) : ℝ) / 3) :=
  ⟨by decide, by norm_num, rect_aspect_ratio 27 4.5 (by decide) (by norm_num)⟩

/-- C4 counterexample: constructing an `Influent` with the unrecognized
unit `"GPD"` and negative flow and concentrations succeeds (the
dataclass performs no validation), and the unrecognized unit surfaces
only later, as a `KeyError` (`none`) when `m3d` is derived — not as an
`InvalidUnit`/`InvalidInput` failure at construction. -/
theorem influent_no_construction_validation_cex :
    Influent.construct (-1) "GPD" (-5) (-2) (-3) (-4) =
      Except.ok ⟨-1, "GPD", -5, -2, -3, -4⟩ ∧
    (Influent.mk (-1) "GPD" (-5) (-2) (-3) (-4)).m3d = none := by
  exact ⟨rfl, rfl⟩

/-- C4 (amended): `Influent` construction performs no validation and
always succeeds, for any unit string and any (also negative) flow or
concentrations; a flow unit outside the recognized enumeration causes
a lookup failure only when the canonical daily flow `m3d` is derived,
and the design rules propagate that derivation failure. -/
theorem influent_no_construction_validation (flow : ℚ) (u : String) (bod tss tkn tp : ℚ)
    (h : unitFactor u = none) :
    Influent.construct flow u bod tss tkn tp = Except.ok ⟨flow, u, bod, tss, tkn, tp⟩ ∧
    (Influent.mk flow u bod tss tkn tp).m3d = none ∧
    calc_cas ⟨flow, u, bod, tss, tkn, tp⟩ = none ∧
    calc_ifas ⟨flow, u, bod, tss, tkn, tp⟩ = none ∧
    calc_mbr ⟨flow, u, bod, tss, tkn, tp⟩ = none ∧
    calc_mbbr ⟨flow, u, bod, tss, tkn, tp⟩ = none := by
  have hm : (Influent.mk flow u bod tss tkn tp).m3d = none := by
    simp [Influent.m3d, h]
  exact ⟨rfl, hm, by simp [calc_cas, hm], by simp [calc_ifas, hm],
    by simp [calc_mbr, hm], by simp [calc_mbbr, hm]⟩

/-- Witness for amended C4 at unit `"GPD"`, flow −1 and negative
concentrations. -/
theorem influent_no_construction_validation_witness :
    unitFactor "GPD" = none ∧
    (Influent.construct (-2) "GPD" (-5) (-2) (-3) (-4) =
        Except.ok ⟨-2, "GPD", -5, -2, -3, -4⟩ ∧
      (Influent.mk (-2) "GPD" (-5) (-2) (-3) (-4)).m3d = none ∧
      calc_cas ⟨-2, "GPD", -5, -2, -3, -4⟩ = none ∧
      calc_ifas ⟨-2, "GPD", -5, -2, -3, -4⟩ = none ∧
      calc_mbr ⟨-2, "GPD", -5, -2, -3, -4⟩ = none ∧
      calc_mbbr ⟨-2, "GPD", -5, -2, -3, -4⟩ = none) :=
  ⟨rfl, influent_no_construction_validation (-2) "GPD" (-5) (-2) (-3) (-4) rfl⟩

/-- C5 counterexample: `_rect(0, 4.5)` and `_circ(0)` both run to a
normal result although V ≤ 0 resp. A ≤ 0, so neither helper fails with
`InvalidInput` there (no such validation exists in the source). -/
theorem geometry_no_validation_cex :
    rectRun 0 4.5 = Except.ok (0 / 4.5 / 3) ∧ circRun 0 = Except.ok 0 := by
  constructor
  · rw [rectRun, if_neg (by norm_num)]
  · rw [circRun, if_neg (by norm_num)]

/-- C5 (amended): the geometry helpers perform no input validation.
`_rect` succeeds for every volume — including V ≤ 0, where the computed
width is a complex number that the f-string formats without error — and
fails only with a `ZeroDivisionError` when D = 0; `_circ` succeeds
whenever A ≥ 0 — including A = 0 — and fails only with a math-domain
`ValueError` when A < 0.  In particular, for strictly positive
arguments neither helper fails. -/
theorem geometry_no_validation (V D A : ℚ) (hD : D ≠ 0) :
    rectRun V D = Except.ok (V / D / 3) ∧
    rectRun V 0 = Except.error PyError.zeroDivisionError ∧
    (0 ≤ A → circRun A = Except.ok A) ∧
    (A < 0 → circRun A = Except.error PyError.valueError) := by
  refine ⟨?_, ?_, fun h => ?_, fun h => ?_⟩
  · rw [rectRun, if_neg hD]
  · rw [rectRun, if_pos rfl]
  · rw [circRun, if_neg (not_lt.mpr h)]
  · rw [circRun, if_pos h]

/-- Witness for amended C5 at V = 0 and V = −1 with D = 4.5 (rect
succeeds on non-positive volumes) and A = 2 (circ succeeds on a
positive area). -/
theorem geometry_no_validation_witness :
    (4.5 : ℚ) ≠ 0 ∧ (0 : ℚ) ≤ 2 ∧
    rectRun 0 4.5 = Except.ok (0 / 4.5 / 3) ∧
    rectRun (-1) 4.5 = Except.ok (-1 / 4.5 / 3) ∧
    rectRun (-1) 0 = Except.error PyError.zeroDivisionError ∧
    circRun 2 = Except.ok 2 :=
  ⟨by norm_num, by norm_num,
   (geometry_no_validation 0 4.5 2 (by norm_num)).1,
   (geometry_no_validation (-1) 4.5 2 (by norm_num)).1,
   (geometry_no_validation (-1) 4.5 2 (by norm_num)).2.1,
   (geometry_no_validation 0 4.5 2 (by norm_num)).2.2.1 (by norm_num)⟩

/-- C6 counterexample: for an influent with BOD 5 and TKN 0 — both
below the CAS effluent table values 10 and 8 — `_air_demand` does not
fail: it returns a value, and that value is negative. -/
theorem airDemand_no_validation_cex :
    (airDemand ⟨1, "MGD", 5, 0, 0, 0⟩ casEff).isSome = true ∧
    (airDemand ⟨1, "MGD", 5, 0, 0, 0⟩ casEff).getD 0 < 0 := by
  have h : airDemand ⟨1, "MGD", 5, 0, 0, 0⟩ casEff =
      some (airFormula ⟨1, "MGD", 5, 0, 0, 0⟩ 10 8 (1 * C.MGD_TO_M3D)) :=
    airDemand_eval _ casEff 10 8 _ casEff_lookup_bod casEff_lookup_tkn rfl
  rw [h]
  refine ⟨rfl, ?_⟩
  rw [Option.getD_some, airFormula]
  norm_num [C.O2_BOD, C.O2_N, C.SOTE, C.O2_AIR, C.RHO_AIR, C.MGD_TO_M3D]

/-- C6 (amended): `_air_demand` performs no validation of the effluent
against the influent: even when the effluent BOD and TKN strictly
exceed the influent values, it returns the value of its usual formula
(a possibly negative airflow) instead of failing. -/
theorem airDemand_no_validation (inf : Influent) (b t q : ℚ)
    (hq : inf.m3d = some q) (hb : inf.bod < b) (ht : inf.tkn < t) :
    airDemand inf [("BOD", b), ("TKN", t)] = some (airFormula inf b t q) :=
  airDemand_eval inf [("BOD", b), ("TKN", t)] b t q rfl rfl hq

/-- Witness for amended C6: influent BOD 5 < effluent BOD 10 and
influent TKN 0 < effluent TKN 8, with 1 MLD of flow. -/
theorem airDemand_no_validation_witness :
    (Influent.mk 1 "MLD" 5 0 0 0).m3d = some 1000 ∧ (5 : ℚ) < 10 ∧ (0 : ℚ) < 8 ∧
    airDemand ⟨1, "MLD", 5, 0, 0, 0⟩ [("BOD", 10), ("TKN", 8)] =
      some (airFormula ⟨1, "MLD", 5, 0, 0, 0⟩ 10 8 1000) :=
  ⟨by simp [Influent.m3d, unitFactor, C.MLD_TO_M3D], by norm_num, by norm_num,
   airDemand_no_validation ⟨1, "MLD", 5, 0, 0, 0⟩ 10 8 1000
     (by simp [Influent.m3d, unitFactor, C.MLD_TO_M3D]) (by norm_num) (by norm_num)⟩

/-- C9: two influents that agree on flow, unit, BOD and TKN but differ
arbitrarily in TSS and TP give identical results from every design rule
and from the air-demand model: TSS and TP are carried but never
consumed. -/
theorem tss_tp_not_consumed (flow : ℚ) (u : String) (bod tss tkn tp tss2 tp2 : ℚ) :
    calc_cas ⟨flow, u, bod, tss, tkn, tp⟩ = calc_cas ⟨flow, u, bod, tss2, tkn, tp2⟩ ∧
    calc_ifas ⟨flow, u, bod, tss, tkn, tp⟩ = calc_ifas ⟨flow, u, bod, tss2, tkn, tp2⟩ ∧
    calc_mbr ⟨flow, u, bod, tss, tkn, tp⟩ = calc_mbr ⟨flow, u, bod, tss2, tkn, tp2⟩ ∧
    calc_mbbr ⟨flow, u, bod, tss, tkn, tp⟩ = calc_mbbr ⟨flow, u, bod, tss2, tkn, tp2⟩ ∧
    (∀ eff, airDemand ⟨flow, u, bod, tss, tkn, tp⟩ eff =
      airDemand ⟨flow, u, bod, tss2, tkn, tp2⟩ eff) :=
  ⟨rfl, rfl, rfl, rfl, fun _ => rfl⟩

